import Mathlib

/-!
Verification of the MLLP exchange in `src/main.rs` of hl7sender
(`send_hl7_message_with_config`).  Bytes are modelled as `Nat` values,
byte sequences as `List Nat`.  The socket is modelled by the list of
outcomes that successive `stream.read` calls produce; the receive loop
consumes that list.  The result of the exchange is `none` when the event
list is exhausted before the loop exits (the execution is still blocked
in a read), otherwise `some` of the `io::Result` value the Rust function
returns, with a returned `String` represented by its UTF-8 bytes.
-/

namespace Hl7Sender

/-- Scratch read buffer size, `const BUFFER_SIZE: usize = 4096` in the source. -/
def BUFFER_SIZE : Nat := 4096

/-- Error kinds of `std::io::ErrorKind` that the source inspects or constructs;
every other kind is collapsed into `other`, keeping a code so that distinct
foreign errors stay distinct. -/
inductive ErrorKind where
  | wouldBlock
  | timedOut
  | invalidData
  | other (code : Nat)
  deriving DecidableEq

/-- An `std::io::Error`: a kind plus a payload message. -/
structure IOError where
  kind : ErrorKind
  msg : String
  deriving DecidableEq

/-- Outcome of one `stream.read(&mut temp_buffer)` call:
`ok bytes` is `Ok(n)` returning those bytes (`ok []` is `Ok(0)`, the
peer-close signal), `err e` is `Err(e)`. -/
inductive ReadResult where
  | ok (bytes : List Nat)
  | err (e : IOError)
  deriving DecidableEq

/-- How the receive loop in the source finishes: `done buf` means the loop
exited via `break` (zero-length read, END-sequence detected, or a
`WouldBlock` read error) carrying the accumulated buffer forward, while
`fatal e` means the whole function returned `Err(e)` from inside the loop. -/
inductive LoopExit where
  | done (buf : List Nat)
  | fatal (e : IOError)
  deriving DecidableEq

/-- One socket operation, for stating the order of writes and reads. -/
inductive SocketOp where
  | write (bytes : List Nat)
  | read (r : ReadResult)
  deriving DecidableEq

/-- `format!("\x0B{}\x1C\x0D", message)` at the byte level: the UTF-8 bytes
of the message, preceded by 0x0B and followed by 0x1C 0x0D (each of the
three marker characters is below 0x80 and hence a single UTF-8 byte). -/
def framed_message (msgBytes : List Nat) : List Nat :=
  0x0B :: (msgBytes ++ [0x1C, 0x0D])

/-- `buffer.ends_with(b"\x1C\x0D")`: the last two bytes are 0x1C then 0x0D. -/
def endsWithEnd (buf : List Nat) : Bool :=
  match buf.reverse with
  | b0 :: b1 :: _ => b0 == 0x0D && b1 == 0x1C
  | _ => false

/-- `buffer.strip_prefix(b"\x0B").unwrap_or(&buffer)`: drop one leading
0x0B byte when present, otherwise return the input unchanged. -/
def stripStart (buf : List Nat) : List Nat :=
  match buf with
  | b :: rest => if b = 0x0B then rest else buf
  | [] => buf

/-- `response.strip_suffix(b"\x1C\x0D").unwrap_or(response)`: drop one
trailing 0x1C 0x0D pair when present, otherwise return the input unchanged. -/
def stripEnd (buf : List Nat) : List Nat :=
  match buf.reverse with
  | b0 :: b1 :: rest => if b0 = 0x0D ∧ b1 = 0x1C then rest.reverse else buf
  | _ => buf

/-- The two deframing lines of the source composed: strip one leading START
byte if present, then strip one trailing END sequence if present. -/
def deframe (buf : List Nat) : List Nat :=
  stripEnd (stripStart buf)

/-- A UTF-8 continuation byte, `0x80 ..= 0xBF`. -/
def contByte (b : Nat) : Bool :=
  decide (0x80 ≤ b ∧ b ≤ 0xBF)

/-- The validation performed by Rust's `String::from_utf8`: standard UTF-8,
rejecting overlong forms, surrogates and code points above 0x10FFFF. -/
def validUtf8 : List Nat → Bool
  | [] => true
  | b :: rest =>
    if b ≤ 0x7F then validUtf8 rest
    else if 0xC2 ≤ b ∧ b ≤ 0xDF then
      match rest with
      | c1 :: rest2 => contByte c1 && validUtf8 rest2
      | [] => false
    else if b = 0xE0 then
      match rest with
      | c1 :: c2 :: rest2 =>
        decide (0xA0 ≤ c1 ∧ c1 ≤ 0xBF) && contByte c2 && validUtf8 rest2
      | _ => false
    else if (0xE1 ≤ b ∧ b ≤ 0xEC) ∨ (0xEE ≤ b ∧ b ≤ 0xEF) then
      match rest with
      | c1 :: c2 :: rest2 => contByte c1 && contByte c2 && validUtf8 rest2
      | _ => false
    else if b = 0xED then
      match rest with
      | c1 :: c2 :: rest2 =>
        decide (0x80 ≤ c1 ∧ c1 ≤ 0x9F) && contByte c2 && validUtf8 rest2
      | _ => false
    else if b = 0xF0 then
      match rest with
      | c1 :: c2 :: c3 :: rest2 =>
        decide (0x90 ≤ c1 ∧ c1 ≤ 0xBF) && contByte c2 && contByte c3 && validUtf8 rest2
      | _ => false
    else if 0xF1 ≤ b ∧ b ≤ 0xF3 then
      match rest with
      | c1 :: c2 :: c3 :: rest2 =>
        contByte c1 && contByte c2 && contByte c3 && validUtf8 rest2
      | _ => false
    else if b = 0xF4 then
      match rest with
      | c1 :: c2 :: c3 :: rest2 =>
        decide (0x80 ≤ c1 ∧ c1 ≤ 0x8F) && contByte c2 && contByte c3 && validUtf8 rest2
      | _ => false
    else false

/-- The receive loop of the source, driven by the list of read outcomes:
`Ok(0)` breaks, `Ok(n)` appends the bytes and breaks when the accumulated
buffer now ends with 0x1C 0x0D, a `WouldBlock` error breaks, any other
error returns it from the whole function.  `none` means the outcome list
was exhausted while the loop was still running. -/
def recvLoop : List ReadResult → List Nat → Option LoopExit
  | [], _ => none
  | ReadResult.ok [] :: _, buf => some (LoopExit.done buf)
  | ReadResult.ok (b :: bs) :: rest, buf =>
    let buf2 := buf ++ b :: bs
    if endsWithEnd buf2 then some (LoopExit.done buf2)
    else recvLoop rest buf2
  | ReadResult.err e :: _, buf =>
    if e.kind = ErrorKind.wouldBlock then some (LoopExit.done buf)
    else some (LoopExit.fatal e)

/-- The read outcomes actually consumed by the receive loop, in order, for
building the socket-operation trace of an exchange. -/
def consumed : List ReadResult → List Nat → List ReadResult
  | [], _ => []
  | ReadResult.ok [] :: _, _ => [ReadResult.ok []]
  | ReadResult.ok (b :: bs) :: rest, buf =>
    let buf2 := buf ++ b :: bs
    if endsWithEnd buf2 then [ReadResult.ok (b :: bs)]
    else ReadResult.ok (b :: bs) :: consumed rest buf2
  | ReadResult.err e :: _, _ => [ReadResult.err e]

/-- Everything after the receive loop in the source: the empty-buffer check
producing the synthesized `TimedOut` error, the two strip lines, and
`String::from_utf8` mapping a failure to `InvalidData`. -/
def finishExchange (buf : List Nat) : Except IOError (List Nat) :=
  if buf = [] then
    Except.error ⟨ErrorKind.timedOut, "Read timed out"⟩
  else
    let response := deframe buf
    if validUtf8 response then Except.ok response
    else Except.error ⟨ErrorKind.invalidData, "invalid utf-8 sequence"⟩

/-- Result of a whole exchange for a given list of read outcomes. -/
def exchangeResult (events : List ReadResult) : Option (Except IOError (List Nat)) :=
  match recvLoop events [] with
  | none => none
  | some (LoopExit.fatal e) => some (Except.error e)
  | some (LoopExit.done buf) => some (finishExchange buf)

/-- The socket operations an exchange performs, in order: one full write of
the framed message (`write_all` before the loop), then the reads the loop
consumes. -/
def exchangeTrace (msgBytes : List Nat) (events : List ReadResult) : List SocketOp :=
  SocketOp.write (framed_message msgBytes) :: (consumed events []).map SocketOp.read

/-- `send_hl7_message_with_config` after a successful connect, as the pair
of its socket-operation trace and its returned value. -/
def send_hl7_message_with_config (msgBytes : List Nat) (events : List ReadResult) :
    List SocketOp × Option (Except IOError (List Nat)) :=
  (exchangeTrace msgBytes events, exchangeResult events)

theorem stripStart_cons (l : List Nat) : stripStart (0x0B :: l) = l := by
  simp [stripStart]

theorem stripStart_of_head_ne (l : List Nat) (h : l.head? ≠ some 0x0B) :
    stripStart l = l := by
  cases l with
  | nil => rfl
  | cons b rest =>
    simp only [List.head?] at h
    simp [stripStart]
    intro hb
    exact absurd (by rw [hb]) h

theorem stripEnd_append_end (m : List Nat) : stripEnd (m ++ [0x1C, 0x0D]) = m := by
  simp [stripEnd, List.reverse_append]

/-- Claim C1: for every payload byte sequence `m`, framing (prepend 0x0B,
append 0x1C 0x0D) and then deframing (strip one leading 0x0B if present,
then one trailing 0x1C 0x0D if present) yields exactly `m`, including
payloads that themselves begin with 0x0B or end with 0x1C 0x0D. -/
theorem frame_deframe_roundtrip (m : List Nat) :
    deframe (framed_message m) = m := by
  rw [deframe, framed_message, stripStart_cons, stripEnd_append_end]

/-- Claim C2: whenever the receive loop exits with an empty accumulated
buffer (zero-length first read, immediate would-block, or a timeout that
surfaces as would-block), the exchange fails with exactly the synthesized
error of kind `TimedOut` and message "Read timed out", never any other
error. -/
theorem empty_reply_timed_out (evs : List ReadResult)
    (h : recvLoop evs [] = some (LoopExit.done [])) :
    exchangeResult evs =
      some (Except.error ⟨ErrorKind.timedOut, "Read timed out"⟩) := by
  simp [exchangeResult, h, finishExchange]

theorem empty_reply_timed_out_witness :
    recvLoop [ReadResult.ok []] [] = some (LoopExit.done []) ∧
    exchangeResult [ReadResult.ok []] =
      some (Except.error ⟨ErrorKind.timedOut, "Read timed out"⟩) :=
  ⟨rfl, empty_reply_timed_out [ReadResult.ok []] rfl⟩

/-- Claim C3: the socket trace of every exchange starts with one write of
exactly 0x0B, the message bytes unmodified (no escaping, no length
prefixing, no checksum), then 0x1C and 0x0D; everything after that single
full-frame write is a read. -/
theorem frame_written_before_reads (m : List Nat) (evs : List ReadResult) :
    (send_hl7_message_with_config m evs).1 =
      SocketOp.write (0x0B :: (m ++ [0x1C, 0x0D])) ::
        (consumed evs []).map SocketOp.read :=
  rfl

/-- Claim C4: after appending the bytes of a successful non-empty read, the
loop exits successfully exactly when the whole accumulated buffer now ends
with 0x1C 0x0D; since the check runs against the entire buffer after each
append, an END sequence split across two reads (here 0x1C in the first
read, 0x0D in the second) still terminates the loop, whatever reads would
follow. -/
theorem loop_end_detection (buf bs : List Nat) (rest : List ReadResult)
    (h : bs ≠ []) :
    recvLoop (ReadResult.ok bs :: rest) buf =
      (if endsWithEnd (buf ++ bs) then some (LoopExit.done (buf ++ bs))
       else recvLoop rest (buf ++ bs)) ∧
    recvLoop (ReadResult.ok [0x0B, 0x41, 0x1C] :: ReadResult.ok [0x0D] :: rest) [] =
      some (LoopExit.done [0x0B, 0x41, 0x1C, 0x0D]) := by
  constructor
  · match bs, h with
    | b :: bs2, _ => simp [recvLoop]
  · simp [recvLoop, endsWithEnd]

theorem loop_end_detection_witness :
    ([0x41] : List Nat) ≠ [] ∧
    recvLoop [ReadResult.ok [0x41]] [] =
      (if endsWithEnd ([] ++ [0x41]) then some (LoopExit.done ([] ++ [0x41]))
       else recvLoop [] ([] ++ [0x41])) :=
  ⟨by decide, (loop_end_detection [] [0x41] [] (by decide)).1⟩

/-- Claim C5: a reply that ends with 0x1C 0x0D but does not begin with 0x0B
deframes to the same payload as the same reply with the START byte present:
one leading 0x0B is stripped only if present and one trailing 0x1C 0x0D is
stripped only if present, absence of either being tolerated. -/
theorem deframe_start_tolerance (p : List Nat) (h : p.head? ≠ some 0x0B) :
    deframe (p ++ [0x1C, 0x0D]) = p ∧
    deframe (0x0B :: (p ++ [0x1C, 0x0D])) = p := by
  constructor
  · rw [deframe, stripStart_of_head_ne, stripEnd_append_end]
    cases p with
    | nil => simp
    | cons a p2 =>
      simp only [List.cons_append, List.head?_cons] at h ⊢
      exact h
  · rw [deframe, stripStart_cons, stripEnd_append_end]

theorem deframe_start_tolerance_witness :
    ([0x41, 0x42] : List Nat).head? ≠ some 0x0B ∧
    (deframe ([0x41, 0x42] ++ [0x1C, 0x0D]) = [0x41, 0x42] ∧
     deframe (0x0B :: ([0x41, 0x42] ++ [0x1C, 0x0D])) = [0x41, 0x42]) :=
  ⟨by decide, deframe_start_tolerance [0x41, 0x42] (by decide)⟩

/-- Claim C6: when the loop exits with a non-empty buffer, the exchange
returns the deframed bytes exactly when they are valid UTF-8, and otherwise
fails with an `InvalidData` error; nothing is substituted or partially
recovered. -/
theorem decode_utf8_classification (evs : List ReadResult) (buf : List Nat)
    (h : recvLoop evs [] = some (LoopExit.done buf)) (hne : buf ≠ []) :
    exchangeResult evs =
      some (if validUtf8 (deframe buf) then Except.ok (deframe buf)
            else Except.error ⟨ErrorKind.invalidData, "invalid utf-8 sequence"⟩) := by
  simp [exchangeResult, h, finishExchange, hne]

theorem decode_utf8_classification_witness :
    recvLoop [ReadResult.ok [0xFF, 0xFE, 0xFD], ReadResult.ok []] [] =
      some (LoopExit.done [0xFF, 0xFE, 0xFD]) ∧
    ([0xFF, 0xFE, 0xFD] : List Nat) ≠ [] ∧
    exchangeResult [ReadResult.ok [0xFF, 0xFE, 0xFD], ReadResult.ok []] =
      some (if validUtf8 (deframe [0xFF, 0xFE, 0xFD]) then
              Except.ok (deframe [0xFF, 0xFE, 0xFD])
            else Except.error ⟨ErrorKind.invalidData, "invalid utf-8 sequence"⟩) :=
  ⟨rfl, by decide,
   decode_utf8_classification [ReadResult.ok [0xFF, 0xFE, 0xFD], ReadResult.ok []]
     [0xFF, 0xFE, 0xFD] rfl (by decide)⟩

/-- Claim C7: a zero-length read and a `WouldBlock` read error both exit the
loop without failing at the read level, keeping the bytes accumulated so
far; and whenever the loop exits that way the buffer is carried forward to
the post-loop stage (empty check, then deframe and decode). -/
theorem graceful_loop_exit (buf acc : List Nat) (rest evs : List ReadResult)
    (e : IOError) (he : e.kind = ErrorKind.wouldBlock)
    (hrec : recvLoop evs [] = some (LoopExit.done acc)) :
    recvLoop (ReadResult.ok [] :: rest) buf = some (LoopExit.done buf) ∧
    recvLoop (ReadResult.err e :: rest) buf = some (LoopExit.done buf) ∧
    exchangeResult evs = some (finishExchange acc) := by
  refine ⟨rfl, ?_, ?_⟩
  · simp [recvLoop, he]
  · simp [exchangeResult, hrec]

theorem graceful_loop_exit_witness :
    (IOError.mk ErrorKind.wouldBlock "would block").kind = ErrorKind.wouldBlock ∧
    recvLoop [ReadResult.ok [0x42], ReadResult.ok []] [] =
      some (LoopExit.done [0x42]) ∧
    (recvLoop [ReadResult.ok []] [0x41] = some (LoopExit.done [0x41]) ∧
     recvLoop [ReadResult.err (IOError.mk ErrorKind.wouldBlock "would block")] [0x41] =
       some (LoopExit.done [0x41]) ∧
     exchangeResult [ReadResult.ok [0x42], ReadResult.ok []] =
       some (finishExchange [0x42])) :=
  ⟨rfl, rfl,
   graceful_loop_exit [0x41] [0x42] [] [ReadResult.ok [0x42], ReadResult.ok []]
     (IOError.mk ErrorKind.wouldBlock "would block") rfl rfl⟩

/-- Claim C8: a read error whose kind is not `WouldBlock` aborts the loop at
once, regardless of how many bytes were already accumulated, and the
exchange returns that very error value unchanged, with no deframing or
decoding on this path. -/
theorem read_error_aborts (buf : List Nat) (rest evs : List ReadResult)
    (e f : IOError) (he : e.kind ≠ ErrorKind.wouldBlock)
    (hrec : recvLoop evs [] = some (LoopExit.fatal f)) :
    recvLoop (ReadResult.err e :: rest) buf = some (LoopExit.fatal e) ∧
    exchangeResult evs = some (Except.error f) := by
  constructor
  · simp [recvLoop, he]
  · simp [exchangeResult, hrec]

theorem read_error_aborts_witness :
    (IOError.mk (ErrorKind.other 7) "boom").kind ≠ ErrorKind.wouldBlock ∧
    recvLoop [ReadResult.ok [0x41], ReadResult.err (IOError.mk (ErrorKind.other 7) "boom")] [] =
      some (LoopExit.fatal (IOError.mk (ErrorKind.other 7) "boom")) ∧
    (recvLoop [ReadResult.err (IOError.mk (ErrorKind.other 7) "boom")] [0x41] =
       some (LoopExit.fatal (IOError.mk (ErrorKind.other 7) "boom")) ∧
     exchangeResult
         [ReadResult.ok [0x41], ReadResult.err (IOError.mk (ErrorKind.other 7) "boom")] =
       some (Except.error (IOError.mk (ErrorKind.other 7) "boom"))) :=
  ⟨by decide, by decide,
   read_error_aborts [0x41] []
     [ReadResult.ok [0x41], ReadResult.err (IOError.mk (ErrorKind.other 7) "boom")]
     (IOError.mk (ErrorKind.other 7) "boom") (IOError.mk (ErrorKind.other 7) "boom")
     (by decide) (by decide)⟩

/-- Claim C9: a non-empty reply made only of framing markers succeeds with
the empty string: buffers 0x0B 0x1C 0x0D, 0x1C 0x0D, and a lone 0x0B all
yield `Ok("")`, while a completely empty buffer is reported as `TimedOut`. -/
theorem marker_only_reply_empty_ok :
    exchangeResult [ReadResult.ok [0x0B, 0x1C, 0x0D]] = some (Except.ok []) ∧
    exchangeResult [ReadResult.ok [0x1C, 0x0D]] = some (Except.ok []) ∧
    exchangeResult [ReadResult.ok [0x0B], ReadResult.ok []] = some (Except.ok []) ∧
    exchangeResult [ReadResult.ok []] =
      some (Except.error ⟨ErrorKind.timedOut, "Read timed out"⟩) := by
  refine ⟨rfl, rfl, rfl, rfl⟩

/-- Claim C10: there is a partition of a well-formed frame into successive
reads for which the exchange returns a strict prefix of the payload: with
payload 0x41 0x1C 0x0D 0x42 split right after the embedded 0x1C 0x0D, the
exchange returns just 0x41. -/
theorem embedded_end_truncates :
    framed_message [0x41, 0x1C, 0x0D, 0x42] =
      [0x0B, 0x41, 0x1C, 0x0D] ++ [0x42, 0x1C, 0x0D] ∧
    exchangeResult
        [ReadResult.ok [0x0B, 0x41, 0x1C, 0x0D], ReadResult.ok [0x42, 0x1C, 0x0D]] =
      some (Except.ok [0x41]) ∧
    ([0x41, 0x1C, 0x0D, 0x42] : List Nat) = [0x41] ++ [0x1C, 0x0D, 0x42] ∧
    ([0x41] : List Nat) ≠ [0x41, 0x1C, 0x0D, 0x42] := by
  refine ⟨rfl, rfl, rfl, by decide⟩

end Hl7Sender
